import Mathlib

/-!
# Verification of the nainobot broadcast core (`app.py`)

Shallow Lean embedding of the core of `app.py`:

* the batched broadcast loop used by `handle_broadcast_message` (admin
  broadcast, batch size 30, inter-batch sleep 0.5 s) and by
  `send_daily_update` / `send_weekly_tip` (scheduled updates, batch size 25,
  inter-batch sleep 0.3 s);
* the data-center secondary-channel sender
  (`DataCenter.send_user_data_sync`, `Database.is_data_center_sent`,
  `Database.mark_data_center_sent`);
* the Flask routes `webhook` and `set_webhook`.

The Python loop

    for i in range(0, len(users), batch_size):
        batch = users[i:i + batch_size]
        ...

is embedded by the list of start indices `batchStarts` (the value of
`range(0, n, B)`, which for `B ≥ 1` has exactly `ceil(n / B)` elements)
and the slice `pySlice us i B = us[i : i + B]`.  Per-recipient sends are
modelled by a function `send : Nat → Bool` giving each recipient's
delivery outcome; `asyncio.gather(..., return_exceptions=True)` absorbs
failures, so a failed send only fails to be counted, it never aborts the
loop.
-/

namespace Nainobot

variable {α : Type*}

/-- Number of iterations of `for i in range(0, n, B)`: the number of
multiples of `B` that are `< n`, which for `B ≥ 1` is `ceil (n / B)`
(written `(n + B - 1) / B` in natural-number arithmetic). -/
def numBatches (n B : Nat) : Nat := (n + B - 1) / B

/-- The start indices produced by `range(0, n, B)` in
`for i in range(0, len(users), batch_size)` (`app.py` lines 452, 478, 503). -/
def batchStarts (n B : Nat) : List Nat := List.range' 0 (numBatches n B) B

/-- The Python slice `us[i : i + B]` (`batch = users[i:i + batch_size]`). -/
def pySlice (us : List α) (i B : Nat) : List α := (us.drop i).take B

/-- The sequence of batches `users[i:i+B]` taken by the broadcast loop. -/
def getBatches (us : List α) (B : Nat) : List (List α) :=
  (batchStarts us.length B).map (fun i => pySlice us i B)

/-- Batch size of the admin broadcast (`batch_size = 30` in
`handle_broadcast_message`). -/
def admin_batch_size : Nat := 30

/-- Batch size of the scheduled updates (`batch_size = 25` in
`send_daily_update` and `send_weekly_tip`). -/
def update_batch_size : Nat := 25

/-- Inter-batch pause of the admin broadcast (`await asyncio.sleep(0.5)`). -/
def admin_sleep_seconds : ℚ := 0.5

/-- Inter-batch pause of the scheduled updates (`await asyncio.sleep(0.3)`). -/
def update_sleep_seconds : ℚ := 0.3

theorem numBatches_zero (B : Nat) : numBatches 0 B = 0 := by
  unfold numBatches
  rcases Nat.eq_zero_or_pos B with h | h
  · subst h; rfl
  · exact Nat.div_eq_of_lt (by omega)

theorem numBatches_succ {n B : Nat} (hB : 0 < B) (hn : 0 < n) :
    numBatches n B = numBatches (n - B) B + 1 := by
  unfold numBatches
  rcases le_or_lt B n with h | h
  · have h1 : n + B - 1 = (n - 1) + B := by omega
    have h2 : n - B + B - 1 = n - 1 := by omega
    rw [h1, h2, Nat.add_div_right _ hB]
  · have h1 : n + B - 1 = (n - 1) + B := by omega
    have h2 : n - B = 0 := by omega
    rw [h1, h2, Nat.add_div_right _ hB,
      Nat.div_eq_of_lt (show n - 1 < B by omega),
      Nat.div_eq_of_lt (show 0 + B - 1 < B by omega)]

theorem numBatches_pos {n B : Nat} (hB : 0 < B) (hn : 0 < n) :
    0 < numBatches n B := by
  rw [numBatches_succ hB hn]; omega

/-- `ceil`-characterisation of the batch count: `numBatches n B` is the
unique `k` with `n ≤ B * k < n + B` (i.e. the least `k` with `n ≤ B * k`). -/
theorem numBatches_mul_bounds {B : Nat} (hB : 0 < B) (n : Nat) :
    n ≤ B * numBatches n B ∧ B * numBatches n B < n + B := by
  have h1 := Nat.div_add_mod (n + B - 1) B
  have h2 := Nat.mod_lt (n + B - 1) hB
  unfold numBatches
  omega

theorem range'_shift (B : Nat) :
    ∀ c s : Nat, List.range' (s + B) c B = (List.range' s c B).map (fun i => i + B) := by
  intro c
  induction c with
  | zero => intro s; rfl
  | succ c ih =>
    intro s
    rw [List.range'_succ, List.range'_succ, List.map_cons, ih (s + B)]

theorem batchStarts_zero (B : Nat) : batchStarts 0 B = [] := by
  simp [batchStarts, numBatches_zero]

theorem batchStarts_succ {n B : Nat} (hB : 0 < B) (hn : 0 < n) :
    batchStarts n B = 0 :: (batchStarts (n - B) B).map (fun i => i + B) := by
  unfold batchStarts
  rw [numBatches_succ hB hn, List.range'_succ, range'_shift]

theorem pySlice_shift (us : List α) (i B : Nat) :
    pySlice us (i + B) B = pySlice (us.drop B) i B := by
  unfold pySlice
  rw [List.drop_drop, Nat.add_comm B i]

theorem getBatches_nil (B : Nat) : getBatches ([] : List α) B = [] := by
  simp [getBatches, batchStarts_zero]

theorem getBatches_cons {B : Nat} (hB : 0 < B) (us : List α) (hus : us ≠ []) :
    getBatches us B = us.take B :: getBatches (us.drop B) B := by
  have hn : 0 < us.length := List.length_pos.mpr hus
  unfold getBatches
  rw [batchStarts_succ hB hn, List.map_cons, List.map_map, List.length_drop]
  refine congrArg₂ List.cons ?_ ?_
  · simp [pySlice]
  · refine List.map_congr_left ?_
    intro i _
    simp only [Function.comp_apply]
    exact pySlice_shift us i B

theorem getBatches_flatten_aux {B : Nat} (hB : 0 < B) :
    ∀ (fuel : Nat) (us : List α), us.length ≤ fuel → (getBatches us B).flatten = us := by
  intro fuel
  induction fuel with
  | zero =>
    intro us h
    have : us = [] := List.eq_nil_of_length_eq_zero (by omega)
    subst this
    simp [getBatches_nil]
  | succ fuel ih =>
    intro us h
    rcases eq_or_ne us [] with rfl | hus
    · simp [getBatches_nil]
    · have hn : 0 < us.length := List.length_pos.mpr hus
      rw [getBatches_cons hB us hus, List.flatten_cons,
        ih (us.drop B) (by rw [List.length_drop]; omega),
        List.take_append_drop]

/-- The batches concatenate, in order, back to the full recipient
snapshot: every recipient is covered exactly once and snapshot order is
preserved. -/
theorem getBatches_flatten {B : Nat} (hB : 0 < B) (us : List α) :
    (getBatches us B).flatten = us :=
  getBatches_flatten_aux hB us.length us le_rfl

theorem getBatches_length (us : List α) (B : Nat) :
    (getBatches us B).length = numBatches us.length B := by
  simp [getBatches, batchStarts, List.length_range']

/-- The `k`-th start index of the loop is `B * k`. -/
theorem batchStarts_getD {n B : Nat} (j : Nat) (hj : j < numBatches n B) :
    (batchStarts n B).getD j 0 = B * j := by
  have hlen : j < (batchStarts n B).length := by
    simpa [batchStarts, List.length_range'] using hj
  rw [List.getD_eq_getElem?_getD, List.getElem?_eq_getElem hlen]
  simp [batchStarts, List.getElem_range']

/-- The loop pauses at the end of iteration `j` exactly when `j` is not
the final iteration: `B * j + B < n` iff `j + 1 < numBatches n B`. -/
theorem sleep_last_iff {n B : Nat} (j : Nat) (hB : 0 < B) (hj : j < numBatches n B) :
    (B * j + B < n) ↔ (j + 1 < numBatches n B) := by
  have hn : 0 < n := by
    rcases Nat.eq_zero_or_pos n with h0 | h0
    · subst h0; rw [numBatches_zero] at hj; omega
    · exact h0
  have hiff : j + 2 ≤ numBatches n B ↔ (j + 2) * B ≤ n + B - 1 := by
    unfold numBatches
    exact Nat.le_div_iff_mul_le hB
  have hexp : (j + 2) * B = B * j + 2 * B := by ring
  rw [hexp] at hiff
  constructor
  · intro h
    have := hiff.mpr (by omega)
    omega
  · intro h
    have := hiff.mp (by omega)
    omega

/-! ### The broadcast loop

State threaded through `for i in range(0, len(users), batch_size)`:
`success_count` accumulates
`sum(1 for r in results if not isinstance(r, Exception))`, `sent` the
recipients to whom a send was issued (in issue order), and `sleeps` the
number of times `await asyncio.sleep(...)` ran
(`if i + batch_size < len(users)`). -/

structure LoopState where
  success_count : Nat
  sent : List Nat
  sleeps : Nat
deriving DecidableEq, Repr

/-- One iteration of the broadcast loop body at start index `i`
(`app.py` lines 453-463 and 479-488). -/
def broadcastStep (send : Nat → Bool) (users : List Nat) (B : Nat)
    (st : LoopState) (i : Nat) : LoopState :=
  { success_count := st.success_count + (pySlice users i B).countP send
    sent := st.sent ++ pySlice users i B
    sleeps := st.sleeps + if i + B < users.length then 1 else 0 }

/-- The whole broadcast loop over the snapshot `users`. -/
def broadcastLoop (send : Nat → Bool) (users : List Nat) (B : Nat) : LoopState :=
  (batchStarts users.length B).foldl (broadcastStep send users B) ⟨0, [], 0⟩

/-- The `succeeded/attempted` pair the admin broadcast reports
(`Sent to: {success_count}/{len(users)} users`). -/
structure BroadcastResult where
  attempted : Nat
  succeeded : Nat
deriving DecidableEq, Repr

def broadcastResult (send : Nat → Bool) (users : List Nat) (B : Nat) : BroadcastResult :=
  { attempted := users.length
    succeeded := (broadcastLoop send users B).success_count }

theorem broadcastLoop_fold (send : Nat → Bool) {B : Nat} (hB : 0 < B) :
    ∀ (fuel : Nat) (us : List Nat) (st : LoopState), us.length ≤ fuel →
      (batchStarts us.length B).foldl (broadcastStep send us B) st =
        ⟨st.success_count + us.countP send, st.sent ++ us,
          st.sleeps + (numBatches us.length B - 1)⟩ := by
  intro fuel
  induction fuel with
  | zero =>
    intro us st h
    have : us = [] := List.eq_nil_of_length_eq_zero (by omega)
    subst this
    cases st
    simp [batchStarts_zero, numBatches_zero]
  | succ fuel ih =>
    intro us st h
    rcases eq_or_ne us [] with rfl | hus
    · cases st
      simp [batchStarts_zero, numBatches_zero]
    · have hn : 0 < us.length := List.length_pos.mpr hus
      rw [batchStarts_succ hB hn, List.foldl_cons, List.foldl_map]
      have hslice : pySlice us 0 B = us.take B := by simp [pySlice]
      have hnum := numBatches_succ hB hn
      rcases le_or_lt B us.length with hBn | hBn
      · have hfun : (fun st i => broadcastStep send us B st (i + B)) =
            broadcastStep send (us.drop B) B := by
          funext st i
          have hif : (if i + B + B < us.length then 1 else 0)
              = (if i + B < us.length - B then 1 else 0 : Nat) := by
            rcases lt_or_le (i + B + B) us.length with h | h
            · rw [if_pos h, if_pos (by omega)]
            · rw [if_neg (by omega), if_neg (by omega)]
          unfold broadcastStep
          rw [pySlice_shift, List.length_drop, hif]
        rw [hfun]
        have hlen : (us.drop B).length = us.length - B := List.length_drop B us
        have hrec := ih (us.drop B) (broadcastStep send us B st 0)
          (by rw [hlen]; omega)
        rw [hlen] at hrec
        rw [hrec]
        have hcount : (us.take B).countP send + (us.drop B).countP send
            = us.countP send := by
          rw [← List.countP_append, List.take_append_drop]
        simp only [broadcastStep, hslice, LoopState.mk.injEq]
        refine ⟨by omega, ?_, ?_⟩
        · rw [List.append_assoc, List.take_append_drop]
        · rcases lt_or_le B us.length with hlt | hle
          · have hpos : 0 < numBatches (us.length - B) B :=
              numBatches_pos hB (by omega)
            rw [if_pos (show 0 + B < us.length by omega)]
            omega
          · rw [if_neg (show ¬ 0 + B < us.length by omega)]
            have h0 : numBatches (us.length - B) B = 0 := by
              rw [show us.length - B = 0 by omega, numBatches_zero]
            omega
      · -- fewer recipients than one batch: the mapped tail is empty
        have h0 : us.length - B = 0 := by omega
        have hrest : batchStarts (us.length - B) B = [] := by
          rw [h0, batchStarts_zero]
        rw [hrest]
        simp only [List.foldl_nil]
        have htake : us.take B = us := List.take_of_length_le (by omega)
        rw [h0, numBatches_zero] at hnum
        simp only [broadcastStep, hslice, htake, LoopState.mk.injEq]
        rw [if_neg (show ¬ 0 + B < us.length by omega)]
        exact ⟨trivial, trivial, by omega⟩

/-- Full characterisation of one broadcast-loop run over snapshot `us`
with per-recipient outcomes `send`: every recipient receives exactly one
send attempt in snapshot order, the success count is the number of
successful sends, and the pacing sleep runs once per batch except the
last. -/
theorem broadcastLoop_spec (send : Nat → Bool) (us : List Nat) {B : Nat} (hB : 0 < B) :
    broadcastLoop send us B =
      ⟨us.countP send, us, numBatches us.length B - 1⟩ := by
  have h := broadcastLoop_fold send hB us.length us ⟨0, [], 0⟩ le_rfl
  simpa [broadcastLoop] using h

/-! ### The admin broadcast handler and the scheduled updates

`handle_broadcast_message` (`app.py` lines 444-464) is registered for
text messages that do not start with a slash.  Its body:

    if message.from_user.id != ADMIN_ID or message.reply_to_message:
        return
    if len(message.text) > 10:
        ... broadcast with batch_size 30 ...
        await message.answer("... Sent to: {success_count}/{len(users)} users")

`ADMIN_ID` is `None` when the configured value fails to parse as an
integer, so it is modelled as `Option Int`; a concrete caller identity
never equals `None`. -/

structure Message where
  from_user_id : Int
  is_reply : Bool
  text : String

/-- Acknowledgments a caller of the admin broadcast trigger could
observe.  The code only ever produces `broadcastSummary`;
`permissionDenied` exists to express the spec's claimed rejection
acknowledgment. -/
inductive Ack where
  | permissionDenied
  | broadcastSummary (succeeded attempted : Nat)
deriving DecidableEq, Repr

structure HandlerOutcome where
  sent : List Nat
  ack : Option Ack
  sleeps : Nat
deriving DecidableEq, Repr

def handle_broadcast_message (admin_id : Option Int) (msg : Message)
    (users : List Nat) (send : Nat → Bool) : HandlerOutcome :=
  if some msg.from_user_id ≠ admin_id ∨ msg.is_reply = true then
    ⟨[], none, 0⟩
  else if msg.text.length > 10 then
    let st := broadcastLoop send users admin_batch_size
    ⟨st.sent, some (Ack.broadcastSummary st.success_count users.length), st.sleeps⟩
  else
    ⟨[], none, 0⟩

/-- `send_daily_update` (`app.py` lines 467-490): same loop with batch
size 25, the gather results discarded (no count is reported). -/
def send_daily_update (users : List Nat) (send : Nat → Bool) : LoopState :=
  broadcastLoop send users update_batch_size

/-- `send_weekly_tip` (`app.py` lines 492-515): identical loop shape. -/
def send_weekly_tip (users : List Nat) (send : Nat → Bool) : LoopState :=
  broadcastLoop send users update_batch_size

/-! ### Database flag and the data-center secondary channel

`Database.is_data_center_sent` / `mark_data_center_sent` (`app.py`
lines 145-163) read and set the per-user `data_center_sent` flag; both
absorb store errors (`except` → log, return `False` / leave the table
unchanged).  The `users` table is projected to its
`(user_id, data_center_sent)` columns.  `query_ok` / `update_ok` model
whether the store operation itself raised. -/

/-- The `users` table projected to `(user_id, data_center_sent)`. -/
def UsersTable := List (Nat × Bool)

/-- `SELECT data_center_sent FROM users WHERE user_id = ?` then
`bool(row[0]) if row else False`; on a store error the `except` branch
logs and returns `False` (never raises). -/
def is_data_center_sent (query_ok : Bool) (tbl : UsersTable) (user_id : Nat) : Bool :=
  if query_ok then
    match tbl.find? (fun r => r.fst == user_id) with
    | some r => r.snd
    | none => false
  else
    false

/-- `UPDATE users SET data_center_sent = TRUE WHERE user_id = ?`; on a
store error the table is left unchanged (logged, absorbed). -/
def mark_data_center_sent (update_ok : Bool) (tbl : UsersTable) (user_id : Nat) : UsersTable :=
  if update_ok then
    tbl.map (fun r => if r.fst == user_id then (r.fst, true) else r)
  else
    tbl

/-- Outcome of `requests.post` to the secondary-channel bot API. -/
inductive HttpPost where
  | status (code : Nat)
  | exn (msg : String)

/-- Result of one `DataCenter.send_user_data_sync` call: the returned
boolean, the table after the call, and how many times `requests.post`
was invoked (the outbound secondary-channel messages). -/
structure SendOutcome where
  result : Bool
  table : UsersTable
  posts : Nat

/-- `DataCenter.send_user_data_sync` (`app.py` lines 196-229): skip when
tokens are missing; short-circuit (returning `True`) when the
`data_center_sent` flag is already set; otherwise post once, and on
HTTP 200 mark the flag and return `True`, on any other status or an
exception return `False`. -/
def send_user_data_sync (tokens : Bool) (query_ok update_ok : Bool)
    (http : HttpPost) (tbl : UsersTable) (user_id : Nat) : SendOutcome :=
  if tokens = false then
    ⟨false, tbl, 0⟩
  else if is_data_center_sent query_ok tbl user_id then
    ⟨true, tbl, 0⟩
  else
    match http with
    | HttpPost.status code =>
        if code = 200 then
          ⟨true, mark_data_center_sent update_ok tbl user_id, 1⟩
        else
          ⟨false, tbl, 1⟩
    | HttpPost.exn _ => ⟨false, tbl, 1⟩

/-! ### Flask routes -/

/-- A Flask JSON response: HTTP status plus the payload fields the
routes produce. -/
structure HttpResponse where
  status : Nat
  ok : Bool
  message : Option String
deriving DecidableEq, Repr

/-- The `/webhook` route (`app.py` lines 537-547).  `parse` is the
combined outcome of `request.get_json(force=True)` and
`types.Update(**data)`; on success the update is scheduled on the
background loop with `run_coroutine_threadsafe` — the returned future is
discarded, so `job_fails` (whether the dispatched job later fails) never
influences the acknowledgment — and `{"status": "ok"}` (HTTP 200) is
returned immediately.  On a parse failure the `except` branch returns
`{"status": "error", "message": str(e)}` with HTTP 500.  The second
component records whether a job was submitted. -/
def webhook (parse : Except String Unit) (job_fails : Bool) : HttpResponse × Bool :=
  match parse with
  | Except.ok _ => (⟨200, true, none⟩, true)
  | Except.error e => (⟨500, false, some e⟩, false)

/-- The timeout passed to `future.result` in `set_webhook`. -/
def webhook_wait_timeout : Nat := 15

/-- The error the caller of `/set_webhook` observes: the exception
caught by the route's `except` branch, either the
`concurrent.futures.TimeoutError` raised by `future.result` when the
deadline elapses, or the delivery exception re-raised from inside the
job. -/
inductive BridgeError where
  | timedOut
  | delivery (msg : String)
deriving DecidableEq, Repr

/-- Result of one `/set_webhook` call. -/
structure SetWebhookOutcome where
  ack : Except BridgeError String
  completes_after_return : Bool
deriving Repr

/-- The `/set_webhook` route (`app.py` lines 549-559).  The job
`bot.set_webhook(url)` is submitted with `run_coroutine_threadsafe` and
the route blocks on `future.result` with timeout 15: if the job finishes
at `completion_time ≤ 15` its result (or re-raised delivery exception
`job_result`) is surfaced, and on success the registered URL is
returned; otherwise `future.result` raises `TimeoutError` — without
cancelling the future, so the job still runs to completion afterward
(`completes_after_return`). -/
def set_webhook (host : String) (completion_time : Nat)
    (job_result : Except String Unit) : SetWebhookOutcome :=
  if completion_time ≤ webhook_wait_timeout then
    match job_result with
    | Except.ok _ =>
        ⟨Except.ok ("https://" ++ host ++ "/webhook"), false⟩
    | Except.error e => ⟨Except.error (BridgeError.delivery e), false⟩
  else
    ⟨Except.error BridgeError.timedOut, true⟩

/-! ### Helper lemmas for the data-center flag -/

theorem mark_keeps_found (user_id : Nat) :
    ∀ tbl : UsersTable, (tbl.find? (fun r => r.fst == user_id)).isSome →
      is_data_center_sent true (mark_data_center_sent true tbl user_id) user_id = true := by
  intro tbl
  induction tbl with
  | nil => intro h; simp [List.find?] at h
  | cons hd tl ih =>
    intro h
    rcases hd with ⟨a, b⟩
    have hmark : mark_data_center_sent true ((a, b) :: tl) user_id
        = (if a == user_id then (a, true) else (a, b))
            :: mark_data_center_sent true tl user_id := by
      simp [mark_data_center_sent]
    by_cases hhd : (a == user_id) = true
    · rw [hmark, if_pos hhd]
      have ha : a = user_id := by simpa using hhd
      subst ha
      simp [is_data_center_sent, List.find?_cons]
    · have ha : ¬ (a = user_id) := by simpa using hhd
      have h' : (tl.find? (fun r => r.fst == user_id)).isSome := by
        simpa [List.find?_cons, ha] using h
      have htl := ih h'
      rw [hmark, if_neg hhd]
      unfold is_data_center_sent at htl ⊢
      rw [if_pos rfl] at htl ⊢
      simpa [List.find?_cons, ha] using htl

/-! ### The claims -/

/-- C1: for every recipient snapshot of size `n ≥ 0` and every batch
size `B ≥ 1`, the broadcast loop takes exactly `ceil(n/B)` batches
(`numBatches`, with its ceiling characterisation `n ≤ B * k < n + B`),
the batches concatenate back to the snapshot in order — every recipient
covered, none omitted, none duplicated — and the reported attempted
count equals `n`; the configured batch sizes are 30 for the admin
broadcast and 25 for the scheduled updates. -/
theorem C1_batch_partition (users : List Nat) (B : Nat) (send : Nat → Bool)
    (hB : 0 < B) :
    (getBatches users B).length = numBatches users.length B ∧
    users.length ≤ B * numBatches users.length B ∧
    B * numBatches users.length B < users.length + B ∧
    (getBatches users B).flatten = users ∧
    (broadcastResult send users B).attempted = users.length ∧
    admin_batch_size = 30 ∧ update_batch_size = 25 :=
  ⟨getBatches_length users B, (numBatches_mul_bounds hB users.length).1,
    (numBatches_mul_bounds hB users.length).2, getBatches_flatten hB users,
    rfl, rfl, rfl⟩

theorem C1_batch_partition_witness :
    0 < 2 ∧
    ((getBatches ([1, 2, 3, 4, 5] : List Nat) 2).length
        = numBatches ([1, 2, 3, 4, 5] : List Nat).length 2 ∧
      ([1, 2, 3, 4, 5] : List Nat).length
        ≤ 2 * numBatches ([1, 2, 3, 4, 5] : List Nat).length 2 ∧
      2 * numBatches ([1, 2, 3, 4, 5] : List Nat).length 2
        < ([1, 2, 3, 4, 5] : List Nat).length + 2 ∧
      (getBatches ([1, 2, 3, 4, 5] : List Nat) 2).flatten = [1, 2, 3, 4, 5] ∧
      (broadcastResult (fun _ => true) [1, 2, 3, 4, 5] 2).attempted
        = ([1, 2, 3, 4, 5] : List Nat).length ∧
      admin_batch_size = 30 ∧ update_batch_size = 25) :=
  ⟨by decide, C1_batch_partition [1, 2, 3, 4, 5] 2 (fun _ => true) (by decide)⟩

/-- C2: the reported succeeded count equals the number of per-recipient
sends whose outcome was success; if every send succeeds it equals the
attempted count, if every send fails it is 0.  Per-recipient failures
are absorbed (`asyncio.gather(..., return_exceptions=True)`): in the
embedding each recipient contributes a `Bool` outcome and the loop is a
total function — no per-recipient failure escapes the call. -/
theorem C2_success_count (users : List Nat) (B : Nat) (send : Nat → Bool)
    (hB : 0 < B) :
    (broadcastResult send users B).succeeded = users.countP send ∧
    ((∀ u ∈ users, send u = true) →
      (broadcastResult send users B).succeeded = (broadcastResult send users B).attempted) ∧
    ((∀ u ∈ users, send u = false) →
      (broadcastResult send users B).succeeded = 0) := by
  have hs : (broadcastResult send users B).succeeded = users.countP send := by
    unfold broadcastResult
    rw [broadcastLoop_spec send users hB]
  refine ⟨hs, ?_, ?_⟩
  · intro hall
    rw [hs]
    exact List.countP_eq_length.mpr hall
  · intro hnone
    rw [hs]
    refine List.countP_eq_zero.mpr ?_
    intro a ha
    simp [hnone a ha]

theorem C2_success_count_witness :
    0 < 2 ∧
    ((broadcastResult (fun u => u != 3) [1, 2, 3, 4, 5] 2).succeeded
        = ([1, 2, 3, 4, 5] : List Nat).countP (fun u => u != 3) ∧
      ((∀ u ∈ ([1, 2, 3, 4, 5] : List Nat), (fun u => u != 3) u = true) →
        (broadcastResult (fun u => u != 3) [1, 2, 3, 4, 5] 2).succeeded
          = (broadcastResult (fun u => u != 3) [1, 2, 3, 4, 5] 2).attempted) ∧
      ((∀ u ∈ ([1, 2, 3, 4, 5] : List Nat), (fun u => u != 3) u = false) →
        (broadcastResult (fun u => u != 3) [1, 2, 3, 4, 5] 2).succeeded = 0)) :=
  ⟨by decide, C2_success_count [1, 2, 3, 4, 5] 2 (fun u => u != 3) (by decide)⟩

/-- C3 (counterexample): with administrator identity 1, a caller with
identity 999 sending body `"hello"` triggers zero sends, but the
acknowledgment is `none` — the handler returns silently — not the
permission-denied acknowledgment the claim asserts. -/
theorem C3_counterexample :
    (handle_broadcast_message (some 1) ⟨999, false, "hello"⟩ [5, 6] (fun _ => true)).ack
        = none ∧
    (handle_broadcast_message (some 1) ⟨999, false, "hello"⟩ [5, 6] (fun _ => true)).ack
        ≠ some Ack.permissionDenied ∧
    (handle_broadcast_message (some 1) ⟨999, false, "hello"⟩ [5, 6] (fun _ => true)).sent
        = [] := by
  decide

/-- C3 (amended): when the caller's identity differs from the configured
administrator identity, the handler performs zero sends and returns
silently with no acknowledgment of any kind (in particular no
permission-denied acknowledgment), and the Batch Broadcaster is never
invoked. -/
theorem C3_non_admin_silent (admin_id : Option Int) (msg : Message)
    (users : List Nat) (send : Nat → Bool)
    (h : some msg.from_user_id ≠ admin_id) :
    handle_broadcast_message admin_id msg users send = ⟨[], none, 0⟩ := by
  unfold handle_broadcast_message
  rw [if_pos (Or.inl h)]

theorem C3_non_admin_silent_witness :
    some (999 : Int) ≠ some 1 ∧
    handle_broadcast_message (some 1) ⟨999, false, "hello"⟩ [5, 6] (fun _ => true)
      = ⟨[], none, 0⟩ :=
  ⟨by decide,
    C3_non_admin_silent (some 1) ⟨999, false, "hello"⟩ [5, 6] (fun _ => true) (by decide)⟩

/-- C4: calling the secondary-channel notification twice for the same
recipient (present in the users table with the flag unset) results in
exactly one outbound post: the first call posts once, succeeds (HTTP
200) and sets the `data_center_sent` flag; the second call is
short-circuited by the flag — zero posts — and returns success, whatever
the network would have done. -/
theorem C4_idempotent (tbl : UsersTable) (user_id : Nat) (http2 : HttpPost)
    (h : tbl.find? (fun r => r.fst == user_id) = some (user_id, false)) :
    (send_user_data_sync true true true (HttpPost.status 200) tbl user_id).result = true ∧
    (send_user_data_sync true true true (HttpPost.status 200) tbl user_id).posts = 1 ∧
    (send_user_data_sync true true true http2
        (send_user_data_sync true true true (HttpPost.status 200) tbl user_id).table
        user_id).result = true ∧
    (send_user_data_sync true true true http2
        (send_user_data_sync true true true (HttpPost.status 200) tbl user_id).table
        user_id).posts = 0 := by
  have h0 : is_data_center_sent true tbl user_id = false := by
    unfold is_data_center_sent
    rw [if_pos rfl, h]
  have e1 : send_user_data_sync true true true (HttpPost.status 200) tbl user_id
      = ⟨true, mark_data_center_sent true tbl user_id, 1⟩ := by
    unfold send_user_data_sync
    rw [if_neg (by decide), if_neg (by rw [h0]; decide)]
    rfl
  have h1 : is_data_center_sent true (mark_data_center_sent true tbl user_id) user_id
      = true :=
    mark_keeps_found user_id tbl (by rw [h]; rfl)
  have e2 : ∀ hp : HttpPost,
      send_user_data_sync true true true hp
        (mark_data_center_sent true tbl user_id) user_id
      = ⟨true, mark_data_center_sent true tbl user_id, 0⟩ := by
    intro hp
    unfold send_user_data_sync
    rw [if_neg (by decide), if_pos h1]
  simp only [e1]
  exact ⟨trivial, trivial, by rw [e2 http2], by rw [e2 http2]⟩

theorem C4_idempotent_witness :
    ([(7, false)] : UsersTable).find? (fun r => r.fst == 7) = some (7, false) ∧
    ((send_user_data_sync true true true (HttpPost.status 200) [(7, false)] 7).result = true ∧
      (send_user_data_sync true true true (HttpPost.status 200) [(7, false)] 7).posts = 1 ∧
      (send_user_data_sync true true true (HttpPost.status 500)
          (send_user_data_sync true true true (HttpPost.status 200) [(7, false)] 7).table
          7).result = true ∧
      (send_user_data_sync true true true (HttpPost.status 500)
          (send_user_data_sync true true true (HttpPost.status 200) [(7, false)] 7).table
          7).posts = 0) :=
  ⟨rfl, C4_idempotent [(7, false)] 7 (HttpPost.status 500) rfl⟩

/-- C5: the pacing sleep (`if i + batch_size < len(users)`) runs exactly
`ceil(n/B) - 1` times: once after every batch except the last, never
after the final batch (`B * j + B < n` holds exactly for the non-final
iterations `j`).  The delays are 0.5 s (admin broadcast) and 0.3 s
(scheduled updates), both within the 0.3-0.5 range. -/
theorem C5_pacing (users : List Nat) (B : Nat) (send : Nat → Bool) (hB : 0 < B) :
    (broadcastLoop send users B).sleeps = numBatches users.length B - 1 ∧
    (users ≠ [] →
      (broadcastLoop send users B).sleeps + 1 = numBatches users.length B) ∧
    (∀ j, j < numBatches users.length B →
      ((batchStarts users.length B).getD j 0 = B * j ∧
        (B * j + B < users.length ↔ j + 1 < numBatches users.length B))) ∧
    admin_sleep_seconds = 0.5 ∧ update_sleep_seconds = 0.3 ∧
    update_sleep_seconds ≤ admin_sleep_seconds ∧
    (3 / 10 : ℚ) ≤ update_sleep_seconds ∧ admin_sleep_seconds ≤ (5 / 10 : ℚ) := by
  refine ⟨?_, ?_, ?_, rfl, rfl,
    by norm_num [admin_sleep_seconds, update_sleep_seconds],
    by norm_num [update_sleep_seconds], by norm_num [admin_sleep_seconds]⟩
  · rw [broadcastLoop_spec send users hB]
  · intro hne
    have hpos := numBatches_pos hB (List.length_pos.mpr hne)
    rw [broadcastLoop_spec send users hB]
    show numBatches users.length B - 1 + 1 = numBatches users.length B
    omega
  · intro j hj
    exact ⟨batchStarts_getD j hj, sleep_last_iff j hB hj⟩

theorem C5_pacing_witness :
    0 < 2 ∧
    ((broadcastLoop (fun _ => true) [1, 2, 3, 4, 5] 2).sleeps
        = numBatches ([1, 2, 3, 4, 5] : List Nat).length 2 - 1 ∧
      (([1, 2, 3, 4, 5] : List Nat) ≠ [] →
        (broadcastLoop (fun _ => true) [1, 2, 3, 4, 5] 2).sleeps + 1
          = numBatches ([1, 2, 3, 4, 5] : List Nat).length 2) ∧
      (∀ j, j < numBatches ([1, 2, 3, 4, 5] : List Nat).length 2 →
        ((batchStarts ([1, 2, 3, 4, 5] : List Nat).length 2).getD j 0 = 2 * j ∧
          (2 * j + 2 < ([1, 2, 3, 4, 5] : List Nat).length ↔
            j + 1 < numBatches ([1, 2, 3, 4, 5] : List Nat).length 2))) ∧
      admin_sleep_seconds = 0.5 ∧ update_sleep_seconds = 0.3 ∧
      update_sleep_seconds ≤ admin_sleep_seconds ∧
      (3 / 10 : ℚ) ≤ update_sleep_seconds ∧ admin_sleep_seconds ≤ (5 / 10 : ℚ)) :=
  ⟨by decide, C5_pacing [1, 2, 3, 4, 5] 2 (fun _ => true) (by decide)⟩

/-- C6: `/set_webhook` blocks on the submitted job with a 15-second
timeout; completion (with success) within the deadline returns the
registered URL, while an elapsed deadline surfaces the `TimeoutError`
raised by `future.result` — an error distinct from every delivery
error — and the future is not cancelled, so the job still completes
afterward. -/
theorem C6_set_webhook (host : String) (t : Nat) (r : Except String Unit) :
    webhook_wait_timeout = 15 ∧
    (t ≤ 15 → r = Except.ok () →
      (set_webhook host t r).ack = Except.ok ("https://" ++ host ++ "/webhook")) ∧
    (15 < t →
      (set_webhook host t r).ack = Except.error BridgeError.timedOut ∧
      (∀ m, (set_webhook host t r).ack ≠ Except.error (BridgeError.delivery m)) ∧
      (set_webhook host t r).completes_after_return = true) := by
  refine ⟨rfl, ?_, ?_⟩
  · intro ht hr
    subst hr
    unfold set_webhook
    rw [if_pos (show t ≤ webhook_wait_timeout from ht)]
  · intro ht
    have hn : ¬ t ≤ webhook_wait_timeout := by
      unfold webhook_wait_timeout
      omega
    unfold set_webhook
    rw [if_neg hn]
    exact ⟨rfl, fun m => by simp, rfl⟩

theorem C6_set_webhook_witness :
    webhook_wait_timeout = 15 ∧
    (20 ≤ 15 → (Except.ok () : Except String Unit) = Except.ok () →
      (set_webhook "example.com" 20 (Except.ok ())).ack
        = Except.ok ("https://" ++ "example.com" ++ "/webhook")) ∧
    (15 < 20 →
      (set_webhook "example.com" 20 (Except.ok ())).ack
        = Except.error BridgeError.timedOut ∧
      (∀ m, (set_webhook "example.com" 20 (Except.ok ())).ack
        ≠ Except.error (BridgeError.delivery m)) ∧
      (set_webhook "example.com" 20 (Except.ok ())).completes_after_return = true) :=
  C6_set_webhook "example.com" 20 (Except.ok ())

/-- C7 (counterexample): a malformed payload is acknowledged with HTTP
500, which is a server-error-class status, not a client-error-class
(4xx) acknowledgment as claimed. -/
theorem C7_counterexample :
    (webhook (Except.error "bad payload") false).fst.status = 500 ∧
    ¬ (400 ≤ (webhook (Except.error "bad payload") false).fst.status ∧
       (webhook (Except.error "bad payload") false).fst.status < 500) := by
  decide

/-- C7 (amended): inbound event submission acknowledges immediately with
HTTP 200 without waiting for the dispatched job — a failure inside the
job never changes the acknowledgment — and a malformed payload returns a
server-error-class (HTTP 500) acknowledgment carrying a message
describing the parse failure. -/
theorem C7_webhook_ack (e : String) (jf jf2 : Bool) :
    webhook (Except.ok ()) jf = (⟨200, true, none⟩, true) ∧
    webhook (Except.ok ()) jf = webhook (Except.ok ()) jf2 ∧
    webhook (Except.error e) jf = (⟨500, false, some e⟩, false) :=
  ⟨rfl, rfl, rfl⟩

/-- C9: the admin broadcast fires only for a non-reply message from the
administrator whose text length exceeds 10; in every other case —
including an admin message of length at most 10 and any reply — the
handler performs zero sends and returns no acknowledgment of any kind.
When it fires, every snapshot recipient is sent to and the summary
acknowledgment is returned. -/
theorem C9_admin_gate (admin_id : Option Int) (msg : Message)
    (users : List Nat) (send : Nat → Bool) :
    (¬ (some msg.from_user_id = admin_id ∧ msg.is_reply = false ∧
          10 < msg.text.length) →
      handle_broadcast_message admin_id msg users send = ⟨[], none, 0⟩) ∧
    ((some msg.from_user_id = admin_id ∧ msg.is_reply = false ∧
          10 < msg.text.length) →
      handle_broadcast_message admin_id msg users send =
        ⟨users, some (Ack.broadcastSummary (users.countP send) users.length),
          numBatches users.length admin_batch_size - 1⟩) := by
  constructor
  · intro h
    unfold handle_broadcast_message
    rcases Decidable.em (some msg.from_user_id ≠ admin_id ∨ msg.is_reply = true) with hc | hc
    · rw [if_pos hc]
    · have h1 : some msg.from_user_id = admin_id := by
        by_contra hx
        exact hc (Or.inl hx)
      have h2 : msg.is_reply = false := by
        cases hr : msg.is_reply
        · rfl
        · exact absurd (Or.inr hr) hc
      have h3 : ¬ 10 < msg.text.length := fun hlen => h ⟨h1, h2, hlen⟩
      rw [if_neg hc, if_neg h3]
  · rintro ⟨h1, h2, h3⟩
    unfold handle_broadcast_message
    have hc : ¬ (some msg.from_user_id ≠ admin_id ∨ msg.is_reply = true) := by
      rintro (hx | hx)
      · exact hx h1
      · rw [h2] at hx
        exact Bool.false_ne_true hx
    rw [if_neg hc, if_pos h3,
      broadcastLoop_spec send users (show 0 < admin_batch_size by decide)]

theorem C9_admin_gate_witness :
    ((¬ (some (1 : Int) = some 1 ∧ false = false ∧
          10 < ("short" : String).length) →
      handle_broadcast_message (some 1) ⟨1, false, "short"⟩ [1, 2, 3] (fun _ => true)
        = ⟨[], none, 0⟩) ∧
    ((some (1 : Int) = some 1 ∧ false = false ∧ 10 < ("short" : String).length) →
      handle_broadcast_message (some 1) ⟨1, false, "short"⟩ [1, 2, 3] (fun _ => true) =
        ⟨[1, 2, 3],
          some (Ack.broadcastSummary (([1, 2, 3] : List Nat).countP (fun _ => true))
            ([1, 2, 3] : List Nat).length),
          numBatches ([1, 2, 3] : List Nat).length admin_batch_size - 1⟩)) ∧
    ((¬ (some (1 : Int) = some 1 ∧ false = false ∧
          10 < ("hello world!" : String).length) →
      handle_broadcast_message (some 1) ⟨1, false, "hello world!"⟩ [1, 2, 3] (fun _ => true)
        = ⟨[], none, 0⟩) ∧
    ((some (1 : Int) = some 1 ∧ false = false ∧
          10 < ("hello world!" : String).length) →
      handle_broadcast_message (some 1) ⟨1, false, "hello world!"⟩ [1, 2, 3] (fun _ => true) =
        ⟨[1, 2, 3],
          some (Ack.broadcastSummary (([1, 2, 3] : List Nat).countP (fun _ => true))
            ([1, 2, 3] : List Nat).length),
          numBatches ([1, 2, 3] : List Nat).length admin_batch_size - 1⟩)) :=
  ⟨C9_admin_gate (some 1) ⟨1, false, "short"⟩ [1, 2, 3] (fun _ => true),
    C9_admin_gate (some 1) ⟨1, false, "hello world!"⟩ [1, 2, 3] (fun _ => true)⟩

/-- C10: `is_data_center_sent` returns `false` both when no record
exists for the queried user and when the store query fails, and never
raises (it is a total `Bool`-valued function); in both situations the
secondary-channel notifier treats the user as not-yet-notified and
proceeds to attempt the post (`posts = 1`). -/
theorem C10_flag_default (tbl : UsersTable) (user_id : Nat) (http : HttpPost)
    (update_ok : Bool)
    (hnone : tbl.find? (fun r => r.fst == user_id) = none) :
    is_data_center_sent true tbl user_id = false ∧
    (∀ (tbl2 : UsersTable) (uid2 : Nat), is_data_center_sent false tbl2 uid2 = false) ∧
    (send_user_data_sync true true update_ok http tbl user_id).posts = 1 ∧
    (∀ (tbl2 : UsersTable) (uid2 : Nat),
      (send_user_data_sync true false update_ok http tbl2 uid2).posts = 1) := by
  have hq : is_data_center_sent true tbl user_id = false := by
    unfold is_data_center_sent
    rw [if_pos rfl, hnone]
  have hqf : ∀ (tbl2 : UsersTable) (uid2 : Nat),
      is_data_center_sent false tbl2 uid2 = false := by
    intro tbl2 uid2
    unfold is_data_center_sent
    rw [if_neg (by decide)]
  have hposts : ∀ (t2 : UsersTable) (u2 : Nat),
      is_data_center_sent true t2 u2 = false →
      (send_user_data_sync true true update_ok http t2 u2).posts = 1 := by
    intro t2 u2 hf
    unfold send_user_data_sync
    rw [if_neg (by decide), if_neg (by rw [hf]; decide)]
    cases http with
    | status code => by_cases hc : code = 200 <;> simp [hc]
    | exn m => rfl
  have hpostsf : ∀ (t2 : UsersTable) (u2 : Nat),
      (send_user_data_sync true false update_ok http t2 u2).posts = 1 := by
    intro t2 u2
    unfold send_user_data_sync
    rw [if_neg (by decide), if_neg (by rw [hqf t2 u2]; decide)]
    cases http with
    | status code => by_cases hc : code = 200 <;> simp [hc]
    | exn m => rfl
  exact ⟨hq, hqf, hposts tbl user_id hq, hpostsf⟩

theorem C10_flag_default_witness :
    ([(9, true)] : UsersTable).find? (fun r => r.fst == 7) = none ∧
    (is_data_center_sent true [(9, true)] 7 = false ∧
      (∀ (tbl2 : UsersTable) (uid2 : Nat), is_data_center_sent false tbl2 uid2 = false) ∧
      (send_user_data_sync true true true (HttpPost.status 404) [(9, true)] 7).posts = 1 ∧
      (∀ (tbl2 : UsersTable) (uid2 : Nat),
        (send_user_data_sync true false true (HttpPost.status 404) tbl2 uid2).posts = 1)) :=
  ⟨rfl, C10_flag_default [(9, true)] 7 (HttpPost.status 404) true rfl⟩

end Nainobot
